import Mathlib

/-!
Verification of the routed three-LAN Mininet script
(`layer3_network_code.py`).

The script is fully concrete: `RoutedThreeLanTopo.build` declares three
routers, three switches, six hosts and nine links with hard-coded
addresses, and `run()` emits a fixed sequence of shell commands
(interface configuration, static routes, host default routes) and
finally tears the network down.  We embed that data and the command
trace directly, together with the `Router` lifecycle
(`config` enables IPv4 forwarding, `terminate` disables it), and prove
the claimed properties over the embedding.

IPv4 addresses are modelled as natural numbers below 2^32.
-/

/-- Dotted-quad IPv4 address as a `Nat` (big-endian). -/
def ipv4 (a b c d : Nat) : Nat :=
  (a % 256) * 2 ^ 24 + (b % 256) * 2 ^ 16 + (c % 256) * 2 ^ 8 + d % 256

/-- Network part of `a` under a prefix length `p` (host bits zeroed). -/
def netTrunc (a p : Nat) : Nat := (a >>> (32 - p)) <<< (32 - p)

/-- The dotted netmask corresponding to a CIDR prefix length `p ≤ 32`. -/
def maskOfPlen (p : Nat) : Nat := 2 ^ 32 - 2 ^ (32 - p)

/-- Two subnets overlap iff the shorter prefix contains the other network. -/
def subnetsOverlapb (a1 p1 a2 p2 : Nat) : Bool :=
  netTrunc a1 (min p1 p2) == netTrunc a2 (min p1 p2)

/-- Two subnets are identical: same prefix length and same network. -/
def sameSubnetb (a1 p1 a2 p2 : Nat) : Bool :=
  p1 == p2 && netTrunc a1 p1 == netTrunc a2 p2

/-- `str.startswith(p)` of Python, used by the host default-route loop. -/
def strStartsWith (s p : String) : Bool := List.isPrefixOf p.toList s.toList

/-- A shell-level configuration command emitted on a node, as the script
issues them via `cmd` (plus the node teardown performed by the
emulation substrate). -/
inductive Cmd where
  | sysctlFwd (enabled : Bool)
  | ifconfigUp (intf : String) (addr : Nat) (plen : Nat)
  | routeAddNet (dest : Nat) (mask : Nat) (gw : Nat)
  | routeAddDefault (gw : Nat)
  | teardown
deriving DecidableEq, Repr

/-- A LAN segment of the model: its switch, its router, the router
interface attached to it (name and address, from `run()` lines 170-182)
and the segment subnet. -/
structure Segment where
  sname : String
  switch : String
  router : String
  rIntf : String
  rAddr : Nat
  network : Nat
  plen : Nat
deriving DecidableEq, Repr

/-- Segment A: router `rA`, interface `rA-eth1` at 20.10.172.129/26. -/
def segA : Segment :=
  ⟨"A", "s1", "rA", "rA-eth1", ipv4 20 10 172 129, ipv4 20 10 172 128, 26⟩

/-- Segment B: router `rB`, interface `rB-eth1` at 20.10.172.1/25. -/
def segB : Segment :=
  ⟨"B", "s2", "rB", "rB-eth1", ipv4 20 10 172 1, ipv4 20 10 172 0, 25⟩

/-- Segment C: router `rC`, interface `rC-eth1` at 20.10.172.193/27. -/
def segC : Segment :=
  ⟨"C", "s3", "rC", "rC-eth1", ipv4 20 10 172 193, ipv4 20 10 172 192, 27⟩

/-- The three LAN segments of the model. -/
def segments : List Segment := [segA, segB, segC]

/-- The routers of the topology (`build`, lines 103-105). -/
def routers : List String := ["rA", "rB", "rC"]

/-- The hosts declared in `build` with their addresses
(lines 113-128). -/
def hostDecls : List (String × Nat × Nat) :=
  [ ("hA1", ipv4 20 10 172 130, 26), ("hA2", ipv4 20 10 172 131, 26),
    ("hB1", ipv4 20 10 172 2, 25), ("hB2", ipv4 20 10 172 3, 25),
    ("hC1", ipv4 20 10 172 194, 27), ("hC2", ipv4 20 10 172 195, 27) ]

/-- Which segment each declared host attaches to (its switch link in
`build`). -/
def hostSegment : List (String × String) :=
  [ ("hA1", "A"), ("hA2", "A"), ("hB1", "B"), ("hB2", "B"),
    ("hC1", "C"), ("hC2", "C") ]

/-- `net.hosts` of the built Mininet network: every non-switch topology
node, in sorted-name order.  The routers were added with `addNode`, so
Mininet places them in `net.hosts` alongside the six LAN hosts. -/
def netHosts : List String :=
  ["hA1", "hA2", "hB1", "hB2", "hC1", "hC2", "rA", "rB", "rC"]

/-- The six static routes hard-coded in `run()` (lines 186-195), each
as `(router, route add -net dest netmask mask gw gateway)`. -/
def routerStaticRoutes : List (String × Cmd) :=
  [ ("rA", .routeAddNet (ipv4 20 10 172 0) (ipv4 255 255 255 128) (ipv4 10 0 10 2)),
    ("rA", .routeAddNet (ipv4 20 10 172 192) (ipv4 255 255 255 224) (ipv4 10 0 30 1)),
    ("rB", .routeAddNet (ipv4 20 10 172 128) (ipv4 255 255 255 192) (ipv4 10 0 10 1)),
    ("rB", .routeAddNet (ipv4 20 10 172 192) (ipv4 255 255 255 224) (ipv4 10 0 20 2)),
    ("rC", .routeAddNet (ipv4 20 10 172 128) (ipv4 255 255 255 192) (ipv4 10 0 30 2)),
    ("rC", .routeAddNet (ipv4 20 10 172 0) (ipv4 255 255 255 128) (ipv4 10 0 20 1)) ]

/-- The body of the host default-route loop (`run()`, lines 199-206):
dispatch on the host-name prefix alone; names matching none of the
three prefixes fall through every branch and get no gateway. -/
def hostDefaultGw (name : String) : Option Nat :=
  if strStartsWith name "hA" then some (ipv4 20 10 172 129)
  else if strStartsWith name "hB" then some (ipv4 20 10 172 1)
  else if strStartsWith name "hC" then some (ipv4 20 10 172 193)
  else none

/-- The default-route commands actually emitted by the loop over
`net.hosts`. -/
def hostDefaultRoutes : List (String × Cmd) :=
  netHosts.filterMap fun n => (hostDefaultGw n).map fun g => (n, Cmd.routeAddDefault g)

/-- The static routes of one router, in emission order. -/
def routesOf (r : String) : List Cmd :=
  (routerStaticRoutes.filter fun p => p.1 == r).map Prod.snd

/-- Gateway a router's static-route table uses for a destination
network, if any. -/
def gwFor (r : String) (dest : Nat) : Option Nat :=
  (routerStaticRoutes.filterMap fun p =>
    match p with
    | (q, .routeAddNet d _ g) => if q == r && d == dest then some g else none
    | _ => none).head?

/-- A configured interface of the model: owning node, interface name,
assigned address and prefix length, and the link (point-to-point link
or LAN segment) it sits on.  Addresses are the final ones the script
assigns: host addresses from `build` (lines 113-128) and router
addresses from the `ifconfig` block of `run()` (lines 170-182). -/
structure Iface where
  node : String
  iname : String
  addr : Nat
  plen : Nat
  linkId : Nat
deriving DecidableEq, Repr

/-- Link identifiers: 1-3 the LAN segments A, B, C; 4-6 the
point-to-point links rA-rB, rB-rC, rC-rA. -/
def lanA : Nat := 1
def lanB : Nat := 2
def lanC : Nat := 3
def p2pAB : Nat := 4
def p2pBC : Nat := 5
def p2pCA : Nat := 6

/-- Every configured interface of the model. -/
def allIfaces : List Iface :=
  [ ⟨"hA1", "hA1-eth0", ipv4 20 10 172 130, 26, lanA⟩,
    ⟨"hA2", "hA2-eth0", ipv4 20 10 172 131, 26, lanA⟩,
    ⟨"rA", "rA-eth1", ipv4 20 10 172 129, 26, lanA⟩,
    ⟨"hB1", "hB1-eth0", ipv4 20 10 172 2, 25, lanB⟩,
    ⟨"hB2", "hB2-eth0", ipv4 20 10 172 3, 25, lanB⟩,
    ⟨"rB", "rB-eth1", ipv4 20 10 172 1, 25, lanB⟩,
    ⟨"hC1", "hC1-eth0", ipv4 20 10 172 194, 27, lanC⟩,
    ⟨"hC2", "hC2-eth0", ipv4 20 10 172 195, 27, lanC⟩,
    ⟨"rC", "rC-eth1", ipv4 20 10 172 193, 27, lanC⟩,
    ⟨"rA", "rA-eth2", ipv4 10 0 10 1, 30, p2pAB⟩,
    ⟨"rB", "rB-eth2", ipv4 10 0 10 2, 30, p2pAB⟩,
    ⟨"rB", "rB-eth3", ipv4 10 0 20 1, 30, p2pBC⟩,
    ⟨"rC", "rC-eth2", ipv4 10 0 20 2, 30, p2pBC⟩,
    ⟨"rC", "rC-eth3", ipv4 10 0 30 1, 30, p2pCA⟩,
    ⟨"rA", "rA-eth3", ipv4 10 0 30 2, 30, p2pCA⟩ ]

/-- The no-overlap invariant for a pair of interfaces: subnets disjoint,
or identical and on the same link (the two ends of one point-to-point
link, or members of the same LAN segment). -/
def ifacePairOkb (i j : Iface) : Bool :=
  !(subnetsOverlapb i.addr i.plen j.addr j.plen) ||
    (sameSubnetb i.addr i.plen j.addr j.plen && i.linkId == j.linkId)

/-- A link declaration of `RoutedThreeLanTopo.build`: the two endpoint
nodes in argument order and the explicitly requested interface names
(`intfName1` / `intfName2`), if any. -/
structure LinkDecl where
  endA : String
  endB : String
  intfA : Option String
  intfB : Option String
deriving DecidableEq, Repr

/-- The nine `addLink` calls of `build`, in declaration order
(lines 115-137). -/
def linkDecls : List LinkDecl :=
  [ ⟨"hA1", "s1", none, none⟩,
    ⟨"hA2", "s1", none, none⟩,
    ⟨"s1", "rA", none, some "rA-eth1"⟩,
    ⟨"hB1", "s2", none, none⟩,
    ⟨"hB2", "s2", none, none⟩,
    ⟨"s2", "rB", none, some "rB-eth1"⟩,
    ⟨"hC1", "s3", none, none⟩,
    ⟨"hC2", "s3", none, none⟩,
    ⟨"s3", "rC", none, some "rC-eth1"⟩,
    ⟨"rA", "rB", some "rA-eth2", some "rB-eth2"⟩,
    ⟨"rB", "rC", some "rB-eth3", some "rC-eth2"⟩,
    ⟨"rC", "rA", some "rC-eth3", some "rA-eth3"⟩ ]

/-- The interface names a node receives, in the order its links are
declared in `build`. -/
def declaredIntfs (n : String) : List (Option String) :=
  linkDecls.filterMap fun l =>
    if l.endA == n then some l.intfA
    else if l.endB == n then some l.intfB
    else none

/-- The links a node is an endpoint of, in declaration order. -/
def linksOf (n : String) : List LinkDecl :=
  linkDecls.filter fun l => l.endA == n || l.endB == n

/-- The switches of the topology (`build`, lines 108-110). -/
def switches : List String := ["s1", "s2", "s3"]

/-- Router lifecycle states of the specification: a router starts
`unconfigured`, `config` moves it to `forwarding`, `terminate` to
`disabled`. -/
inductive RouterLife where
  | unconfigured
  | forwarding
  | disabled
deriving DecidableEq, Repr

/-- Errors the specification names; the script itself never raises
any of them. -/
inductive NetError where
  | lifecycleViolation
deriving DecidableEq, Repr

/-- `Router.config` (lines 35-52): configures the node and enables
IPv4 forwarding, unconditionally. -/
def routerConfigStep (_s : RouterLife) : RouterLife × List Cmd :=
  (RouterLife.forwarding, [Cmd.sysctlFwd true])

/-- `Router.terminate` (lines 54-66): disables IPv4 forwarding, then
calls the parent teardown.  It inspects no state and raises no error,
whatever state the router is in. -/
def routerTerminateStep (_s : RouterLife) :
    Except NetError (RouterLife × List Cmd) :=
  Except.ok (RouterLife.disabled, [Cmd.sysctlFwd false, Cmd.teardown])

/-- Commands a node receives when the network is built and started
(`net.start()`, line 163): Mininet configures every non-switch node;
hosts get their declared address on `eth0`, and `Router.config`
additionally enables forwarding on routers.  (Mininet also auto-assigns
a placeholder address to router interfaces here; it is overwritten by
the explicit `ifconfig` block and not modelled.) -/
def startCmds (n : String) : List (String × Cmd) :=
  match hostDecls.find? (fun h => h.1 == n) with
  | some h => [(n, Cmd.ifconfigUp (n ++ "-eth0") h.2.1 h.2.2)]
  | none => if routers.contains n then [(n, Cmd.sysctlFwd true)] else []

/-- The explicit router `ifconfig` block of `run()` (lines 170-182), in
program order. -/
def ifconfigCmds : List (String × Cmd) :=
  [ ("rA", .ifconfigUp "rA-eth1" (ipv4 20 10 172 129) 26),
    ("rA", .ifconfigUp "rA-eth2" (ipv4 10 0 10 1) 30),
    ("rA", .ifconfigUp "rA-eth3" (ipv4 10 0 30 2) 30),
    ("rB", .ifconfigUp "rB-eth1" (ipv4 20 10 172 1) 25),
    ("rB", .ifconfigUp "rB-eth2" (ipv4 10 0 10 2) 30),
    ("rB", .ifconfigUp "rB-eth3" (ipv4 10 0 20 1) 30),
    ("rC", .ifconfigUp "rC-eth1" (ipv4 20 10 172 193) 27),
    ("rC", .ifconfigUp "rC-eth2" (ipv4 10 0 20 2) 30),
    ("rC", .ifconfigUp "rC-eth3" (ipv4 10 0 30 1) 30) ]

/-- Commands a node receives at `net.stop()` (line 216): routers run
`Router.terminate` (forwarding off, then teardown); plain hosts are
simply torn down. -/
def stopCmds (n : String) : List (String × Cmd) :=
  if routers.contains n then [(n, Cmd.sysctlFwd false), (n, Cmd.teardown)]
  else [(n, Cmd.teardown)]

/-- The full (node, command) trace of `run()`: start/configuration
phase, explicit router interface configuration, router static routes,
host default routes, teardown. -/
def runTrace : List (String × Cmd) :=
  netHosts.flatMap startCmds ++ ifconfigCmds ++ routerStaticRoutes ++
    hostDefaultRoutes ++ netHosts.flatMap stopCmds

/-- The commands one node receives, in order. -/
def traceOf (n : String) : List Cmd :=
  (runTrace.filter fun p => p.1 == n).map Prod.snd

/-- Is the command an interface-up with an assigned address? -/
def isIfUp : Cmd → Bool
  | .ifconfigUp _ _ _ => true
  | _ => false

/-- Is the command the forwarding-enable sysctl? -/
def isFwdOn : Cmd → Bool
  | .sysctlFwd b => b
  | _ => false

/-- Is the command a route installation? -/
def isRouteAdd : Cmd → Bool
  | .routeAddNet _ _ _ => true
  | .routeAddDefault _ => true
  | _ => false

/-- Is the command the node teardown? -/
def isTeardown : Cmd → Bool
  | .teardown => true
  | _ => false

/-- `precedesAll p q l`: in `l`, every `p`-command comes before every
`q`-command (no `p`-command occurs after a `q`-command). -/
def precedesAll (p q : Cmd → Bool) : List Cmd → Bool
  | [] => true
  | c :: rest =>
    (if q c then rest.all (fun d => !p d) else true) && precedesAll p q rest

/-- The per-router command order the claim states: every interface-up
before the forwarding-enable, and that before every route install. -/
def claimedStartOrder (l : List Cmd) : Bool :=
  precedesAll isIfUp isFwdOn l && precedesAll isFwdOn isRouteAdd l

/-- The per-router command order the code actually produces:
forwarding-enable first, then interface-ups, then route installs. -/
def actualStartOrder (l : List Cmd) : Bool :=
  precedesAll isFwdOn isIfUp l && precedesAll isIfUp isRouteAdd l

/-- Walk a command list tracking the forwarding flag (initially `st`);
`true` iff at every teardown the flag is off. -/
def fwdOffAtTeardown (st : Bool) : List Cmd → Bool
  | [] => true
  | Cmd.teardown :: rest => !st && fwdOffAtTeardown st rest
  | Cmd.sysctlFwd b :: rest => fwdOffAtTeardown b rest
  | _ :: rest => fwdOffAtTeardown st rest

/-- The route-computation step of `run()` as a function of the node
list: the six hard-coded router routes followed by the host
default-route loop (lines 184-206). -/
def computeRoutes (hosts : List String) : List (String × Cmd) :=
  routerStaticRoutes ++
    hosts.filterMap fun n => (hostDefaultGw n).map fun g => (n, Cmd.routeAddDefault g)

/-- Claim C1: for the reference triangle topology, route computation
produces exactly six router routes, two per router and one per
non-local segment, with exactly the gateways rA→B via 10.0.10.2,
rA→C via 10.0.30.1, rB→A via 10.0.10.1, rB→C via 10.0.20.2,
rC→A via 10.0.30.2, rC→B via 10.0.20.1, and exactly six host
default-routes. -/
theorem reference_triangle_routes :
    routerStaticRoutes.length = 6 ∧
    (routesOf "rA").length = 2 ∧ (routesOf "rB").length = 2 ∧
    (routesOf "rC").length = 2 ∧
    gwFor "rA" segA.network = none ∧
    gwFor "rB" segB.network = none ∧
    gwFor "rC" segC.network = none ∧
    gwFor "rA" segB.network = some (ipv4 10 0 10 2) ∧
    gwFor "rA" segC.network = some (ipv4 10 0 30 1) ∧
    gwFor "rB" segA.network = some (ipv4 10 0 10 1) ∧
    gwFor "rB" segC.network = some (ipv4 10 0 20 2) ∧
    gwFor "rC" segA.network = some (ipv4 10 0 30 2) ∧
    gwFor "rC" segB.network = some (ipv4 10 0 20 1) ∧
    hostDefaultRoutes.length = 6 := by decide

/-- Claim C2: every host's default gateway equals the address of the
one router interface attached to that host's segment. -/
theorem host_gateway_is_segment_router_intf :
    ∀ p ∈ hostSegment, ∀ seg ∈ segments,
      seg.sname = p.2 → hostDefaultGw p.1 = some seg.rAddr := by decide

/-- Witness for C2: host `hA1` on segment A gets gateway
20.10.172.129, the address of `rA-eth1`. -/
theorem host_gateway_is_segment_router_intf_witness :
    hostDefaultGw "hA1" = some segA.rAddr :=
  host_gateway_is_segment_router_intf ("hA1", "A") (by decide) segA (by decide)
    (by decide)

/-- Claim C3: every pair of assigned interface subnets is either
disjoint or identical and confined to one link (the two router ends of
a point-to-point link, or the members of one LAN segment); each
point-to-point subnet is shared by exactly its two router ends. -/
theorem subnet_no_overlap_invariant :
    (allIfaces.all fun i => allIfaces.all fun j => ifacePairOkb i j) = true ∧
    (allIfaces.filter fun i => i.linkId == p2pAB).length = 2 ∧
    (allIfaces.filter fun i => i.linkId == p2pBC).length = 2 ∧
    (allIfaces.filter fun i => i.linkId == p2pCA).length = 2 := by decide

/-- Counterexample to claim C4 at router `rA`: in `rA`'s command
sequence the forwarding-enable (issued by `Router.config` during
`net.start()`) precedes the interface-up commands, so the claimed
order (interface-ups first, then forwarding-enable, then routes) does
not hold. -/
theorem start_order_claim_fails_on_rA :
    claimedStartOrder (traceOf "rA") = false := by decide

/-- Amended claim C4: for every router, the per-router command
sequence enables forwarding first, then brings up every owned
interface with its assigned address, then installs every route —
forwarding-enable precedes every interface-up, which precedes every
route-install. -/
theorem start_order_fwd_then_ifup_then_routes :
    (routers.all fun r => actualStartOrder (traceOf r)) = true := by decide

/-- Counterexample to claim C5: `Router.terminate` on a router still
in the `Unconfigured` state does not fail with a lifecycle-violation
error. -/
theorem terminate_unconfigured_not_error :
    routerTerminateStep RouterLife.unconfigured ≠
      Except.error NetError.lifecycleViolation := by
  simp [routerTerminateStep]

/-- Amended claim C5: calling terminate on a Router still in the
Unconfigured state silently proceeds — the code checks no lifecycle
state and defines no LifecycleViolationError; it emits the
forwarding-disable command and tears the node down. -/
theorem terminate_unconfigured_silently_proceeds :
    routerTerminateStep RouterLife.unconfigured =
      Except.ok (RouterLife.disabled, [Cmd.sysctlFwd false, Cmd.teardown]) := rfl

/-- Claim C6: route computation is deterministic — on the reference
node list it yields the same output on any two runs, namely this fixed
list of router routes and host default-routes in this fixed order. -/
theorem compute_routes_deterministic :
    computeRoutes netHosts = computeRoutes netHosts ∧
    computeRoutes netHosts =
      routerStaticRoutes ++
        [ ("hA1", Cmd.routeAddDefault (ipv4 20 10 172 129)),
          ("hA2", Cmd.routeAddDefault (ipv4 20 10 172 129)),
          ("hB1", Cmd.routeAddDefault (ipv4 20 10 172 1)),
          ("hB2", Cmd.routeAddDefault (ipv4 20 10 172 1)),
          ("hC1", Cmd.routeAddDefault (ipv4 20 10 172 193)),
          ("hC2", Cmd.routeAddDefault (ipv4 20 10 172 193)) ] := by
  exact ⟨rfl, by decide⟩

/-- Claim C7: every router's interface names follow
`<routerName>-eth<N>` with `N` assigned in link-declaration order, the
LAN-facing link (to the router's switch) being declared first and
getting `eth1`, the two point-to-point links getting `eth2` and `eth3`
in declaration order. -/
theorem interface_naming_convention :
    (routers.all fun r =>
      declaredIntfs r ==
        [some (r ++ "-eth1"), some (r ++ "-eth2"), some (r ++ "-eth3")]) = true ∧
    (routers.all fun r =>
      match (linksOf r).head? with
      | some l => switches.contains l.endA || switches.contains l.endB
      | none => false) = true := by decide

/-- Claim C8: the dotted netmasks of the static-route commands denote
exactly the subnets given by the segments' CIDR prefixes —
255.255.255.128 is /25, 255.255.255.192 is /26, 255.255.255.224 is
/27 — and every route's (destination, mask) pair matches a segment's
(network, prefix). -/
theorem netmask_cidr_agreement :
    maskOfPlen 25 = ipv4 255 255 255 128 ∧
    maskOfPlen 26 = ipv4 255 255 255 192 ∧
    maskOfPlen 27 = ipv4 255 255 255 224 ∧
    (routerStaticRoutes.all fun p =>
      match p.2 with
      | Cmd.routeAddNet d m _ =>
        segments.any fun s => s.network == d && maskOfPlen s.plen == m
      | _ => false) = true := by decide

/-- Claim C9: every teardown path disables forwarding before the node
is torn down — `Router.terminate` from any state emits the
forwarding-disable command and then the teardown, and in the full run
trace each router's forwarding flag is off at its teardown. -/
theorem forwarding_disabled_on_teardown :
    (∀ s : RouterLife,
      routerTerminateStep s =
        Except.ok (RouterLife.disabled, [Cmd.sysctlFwd false, Cmd.teardown])) ∧
    (routers.all fun r =>
      fwdOffAtTeardown false (traceOf r) && (traceOf r).any isTeardown) = true :=
  ⟨fun s => by cases s <;> rfl, by decide⟩

/-- Claim C10: the default-gateway assignment dispatches purely on the
host-name prefix and is partial — a name starting with none of `hA`,
`hB`, `hC` gets no default route, with no error raised; in the run
itself only the six LAN hosts receive one (the routers, also in
`net.hosts`, silently get none). -/
theorem default_gateway_dispatch_partial :
    (∀ name : String,
      strStartsWith name "hA" = false → strStartsWith name "hB" = false →
      strStartsWith name "hC" = false → hostDefaultGw name = none) ∧
    hostDefaultRoutes.map Prod.fst = ["hA1", "hA2", "hB1", "hB2", "hC1", "hC2"] := by
  refine ⟨fun name h1 h2 h3 => ?_, by decide⟩
  simp [hostDefaultGw, h1, h2, h3]

/-- Witness for C10: the name `x1` matches no prefix and receives no
gateway. -/
theorem default_gateway_dispatch_partial_witness :
    hostDefaultGw "x1" = none :=
  default_gateway_dispatch_partial.1 "x1" (by decide) (by decide) (by decide)
